import Mathlib

/-!
Shallow embedding of the container lifecycle termination subsystem:
`daemon.Kill` (kill.go), `daemon.containerStop` (stop.go), and the two build
variants of the removal path — `ContainerRm`, `cleanupContainer`,
`onlyCleanupContainer`, `OnlyContainerRm` and `pidExists` — from the delete
source file (the first variant imports the windows syscall package, the
second uses `os.FindProcess`/`Signal`; they are modelled in the `Windows` and
`Unix` namespaces, with the byte-identical `cleanupContainer` defined once).

External collaborators (runtime task, layer service, lease service,
filesystem utility, metadata store, process probes, waits on the
not-running transition) are represented by oracle environments whose fields
record the outcome each collaborator returns in a given run; the control
flow, state mutation and event ordering of the daemon functions themselves
are translated from the source.
-/

/-- Error values observable from the modelled functions. `sysFail n` stands
for an arbitrary error produced by an external collaborator (layer service,
lease service, filesystem utility, direct process signalling). -/
inductive Err where
  | conflict
  | notFound
  | notRunning
  | noSuchProcess
  | noExitEvent
  | couldNotKill
  | invalidParameter
  | sysFail (n : Nat)
deriving DecidableEq, Repr

/-- Observable actions performed by the daemon functions, listed in the order
the run performs them. -/
inductive Event where
  | killInvoked
  | statsStop
  | signalSent (sig : Nat)
  | logStop
  | lock
  | unlock
  | setDead
  | checkpoint
  | releaseLayer
  | leaseDelete
  | removeAll
  | linkDelete
  | releaseLabel
  | deregister
  | replicaDelete
  | removeMountPoints
  | releaseNames
  | setRemoved
  | logDestroy
  | rmLink
deriving DecidableEq, Repr

/-- Result of a call that may block forever (an unbounded `container.Wait`
that never observes the not-running transition): `ret e` is a normal return,
`blocked` means the call never returns. -/
inductive Outcome where
  | ret (e : Option Err)
  | blocked
deriving DecidableEq, Repr

/-- Modelled from the spec: the `container.Container` package is not under
src/; the fields follow the data model of the spec (ID, Pid, state flags,
the RWLayer ownership handle, the removal-error diagnostic field, the
configured stop signal and timeout, and the root directory path). -/
structure Container where
  id : String
  pid : Int
  running : Bool
  dead : Bool
  removed : Bool
  hasRWLayer : Bool
  removalError : Option Err
  stopSignal : Nat
  stopTimeout : Int
  root : String
deriving DecidableEq, Repr

/-- `types.ContainerRmConfig`. -/
structure RmConfig where
  forceRemove : Bool
  removeVolume : Bool
  removeLink : Bool
deriving DecidableEq, Repr

/-- `containertypes.StopOptions`: an optional signal-name override (empty
string means none) and an optional timeout override in seconds. -/
structure StopOptions where
  signal : String
  timeout : Option Int
deriving DecidableEq, Repr

/-- Oracle for one run of `daemon.Kill` (kill.go): the outcomes of the
collaborator calls it makes, in program order. -/
structure KillEnv where
  /-- Result of `killPossiblyDeadProcess(container, SIGKILL)`;
  `some .noSuchProcess` models a runtime "not found" mapped to
  `errNoSuchProcess`. -/
  signalErr : Option Err
  /-- The bounded wait (10s, or 75s on windows) observes the not-running
  transition before expiring. -/
  exitsWithinWait : Bool
  /-- Result of `killProcessDirectly(container)` (outside src/). -/
  directKillErr : Option Err
  /-- The final 2-second wait observes the not-running transition. -/
  exitsWithinGrace : Bool
deriving DecidableEq, Repr

/-- kill.go `Kill`: require `Running`; send SIGKILL through
`killPossiblyDeadProcess` — `errNoSuchProcess` is treated as success, any
other failure falls through to the wait; wait bounded by the platform
timeout; on expiry deliver a direct OS signal and grant one final 2-second
wait; if that also expires, fail with the explicit "tried to kill container,
but did not receive an exit event" error. The returned container has
`running := false` exactly when one of the waits observed the transition. -/
def Kill (c : Container) (env : KillEnv) : Option Err × Container :=
  if c.running then
    if env.signalErr = some .noSuchProcess then (none, c)
    else if env.exitsWithinWait then (none, { c with running := false })
    else
      match env.directKillErr with
      | some e => if e = Err.noSuchProcess then (none, c) else (some e, c)
      | none =>
        if env.exitsWithinGrace then (none, { c with running := false })
        else (some .noExitEvent, c)
  else (some .notRunning, c)

/-- Oracle for one run of `daemon.containerStop` (stop.go). -/
structure StopEnv where
  /-- `signal.ParseSignal(options.Signal)` result when the override is
  non-empty; `none` models a parse failure (InvalidParameter). -/
  parsedSignal : Option Nat
  /-- Result of `killPossiblyDeadProcess(ctr, stopSignal)`; in the source it
  only shortens the wait to 2 seconds and is logged. -/
  signalErr : Option Err
  /-- The bounded wait (timeout seconds, or 2 seconds after a failed send)
  observes the not-running transition before expiring. -/
  exitsWithinWait : Bool
  /-- The unbounded wait taken for a negative timeout eventually observes
  the transition; when false that wait — and the call — never returns. -/
  exitsEventually : Bool
  /-- Oracle for the escalation `daemon.Kill` call. -/
  killEnv : KillEnv
  /-- After a failed `Kill`, the extra 2-second wait observes the
  transition. -/
  exitsWithinKillGrace : Bool
deriving DecidableEq, Repr

/-- stop.go `containerStop`. The source binds the caller's context parameter
to `_` and waits on `context.Background()`, so `_parentCancelled` is
deliberately never read: a caller-side cancellation neither interrupts the
wait nor surfaces in the result. With a non-negative effective timeout the
wait is bounded and expiry escalates to `Kill` (with a 2-second grace wait
when `Kill` errors); with a negative effective timeout the wait is unbounded
and the call blocks forever if the container never exits. -/
def containerStop (_parentCancelled : Bool) (ctr : Container)
    (options : StopOptions) (env : StopEnv) :
    Outcome × Container × List Event :=
  if ctr.running then
    match (if options.signal = "" then some ctr.stopSignal else env.parsedSignal) with
    | none => (.ret (some .invalidParameter), ctr, [])
    | some stopSignal =>
      if 0 ≤ options.timeout.getD ctr.stopTimeout then
        if env.exitsWithinWait then
          (.ret none, { ctr with running := false },
            [.signalSent stopSignal, .logStop])
        else
          match Kill ctr env.killEnv with
          | (none, c2) =>
            (.ret none, c2, [.signalSent stopSignal, .killInvoked, .logStop])
          | (some ke, c2) =>
            if env.exitsWithinKillGrace then
              (.ret none, { c2 with running := false },
                [.signalSent stopSignal, .killInvoked, .logStop])
            else (.ret (some ke), c2, [.signalSent stopSignal, .killInvoked])
      else
        if env.exitsEventually then
          (.ret none, { ctr with running := false },
            [.signalSent stopSignal, .logStop])
        else (.blocked, ctr, [.signalSent stopSignal])
  else (.ret none, ctr, [])

/-- Oracle for one run of the cleanup engine. `checkpointErr` and
`removeMountPointsErr` are carried for completeness: the source logs them
and never lets them change the control flow. -/
structure CleanupEnv where
  killEnv : KillEnv
  stopEnv : StopEnv
  /-- `container.CheckpointTo` result; tolerated (logged) in every caller. -/
  checkpointErr : Option Err
  /-- `daemon.imageService.ReleaseLayer` result. -/
  releaseLayerErr : Option Err
  /-- `daemon.UsesSnapshotter()`. -/
  usesSnapshotter : Bool
  /-- `LeasesService().Delete` result. -/
  leaseDeleteErr : Option Err
  /-- `containerfs.EnsureRemoveAll(container.Root)` result. -/
  removeAllErr : Option Err
  /-- `daemon.removeMountPoints` result; logged only. -/
  removeMountPointsErr : Option Err
deriving DecidableEq, Repr

/-- Final phase of `cleanupContainer`: delete the root directory under the
container lock (fatal and recorded on failure), then deregister, release
names and labels, mark Removed and log "destroy". -/
def cleanupFinish (c : Container) (env : CleanupEnv) (pre : List Event) :
    Outcome × Container × List Event :=
  let tr2 := pre ++ [Event.lock, Event.removeAll, Event.unlock]
  match env.removeAllErr with
  | some e => (.ret (some e), { c with removalError := some e }, tr2)
  | none =>
    (.ret none,
      { c with removed := true, removalError := none },
      tr2 ++ [Event.linkDelete, Event.releaseLabel, Event.deregister,
              Event.replicaDelete, Event.removeMountPoints,
              Event.releaseNames, Event.setRemoved, Event.logDestroy])

/-- `cleanupContainer` after the running gate: stop stats collection, run the
graceful stop with the fixed 3-second timeout, mark Dead and checkpoint under
the container lock, release exactly one of the writable layer or the snapshot
lease (fatal and recorded on failure), then finish. `pre` is the trace
accumulated by the gate. -/
def cleanupTeardown (c : Container) (env : CleanupEnv) (pre : List Event) :
    Outcome × Container × List Event :=
  let tr0 := pre ++ [Event.statsStop]
  match containerStop false c { signal := "", timeout := some 3 } env.stopEnv with
  | (.blocked, c1, trS) => (.blocked, c1, tr0 ++ trS)
  | (.ret (some e), c1, trS) => (.ret (some e), c1, tr0 ++ trS)
  | (.ret none, c1, trS) =>
    let c2 := { c1 with dead := true }
    let tr1 := tr0 ++ trS ++
      [Event.lock, Event.setDead, Event.checkpoint, Event.unlock]
    if c2.hasRWLayer then
      match env.releaseLayerErr with
      | some e =>
        (.ret (some e), { c2 with removalError := some e },
          tr1 ++ [Event.releaseLayer])
      | none =>
        cleanupFinish { c2 with hasRWLayer := false } env
          (tr1 ++ [Event.releaseLayer])
    else if env.usesSnapshotter then
      match env.leaseDeleteErr with
      | some e =>
        (.ret (some e), { c2 with removalError := some e },
          tr1 ++ [Event.leaseDelete])
      | none => cleanupFinish c2 env (tr1 ++ [Event.leaseDelete])
    else cleanupFinish c2 env tr1

/-- delete source `cleanupContainer` (byte-identical in both build variants):
reject a still-running container with Conflict unless `ForceRemove` is set;
when forced, run `daemon.Kill` first and fail ("Could not kill running
container") without any teardown if it errors; then tear down. -/
def cleanupContainer (c : Container) (config : RmConfig) (env : CleanupEnv) :
    Outcome × Container × List Event :=
  if c.running then
    if config.forceRemove then
      match Kill c env.killEnv with
      | (some _, c1) => (.ret (some .couldNotKill), c1, [Event.killInvoked])
      | (none, c1) => cleanupTeardown c1 env [Event.killInvoked]
    else (.ret (some .conflict), c, [])
  else cleanupTeardown c env []

/-- Oracle for one `ContainerRm` / `OnlyContainerRm` run. -/
structure RmEnv where
  /-- Modelled from the spec: `daemon.GetContainer` is outside src/; the spec
  resolves the name to a container, failing with NotFound when absent, and a
  fully removed container is absent from the registry so any reference to it
  is treated as not found. -/
  resolved : Option Container
  /-- `ctr.SetRemovalInProgress()` found the flag already set. -/
  inProgress : Bool
  /-- The post-guard `daemon.containers.Get(ctr.ID)` still finds the
  container registered. -/
  stillRegistered : Bool
  /-- Ground truth consumed by the unix probe fast path: the container's
  process is alive when `ContainerRm` starts. -/
  procAlive : Bool
  /-- Result of the legacy `rmLink` path. -/
  rmLinkErr : Option Err
  cleanupEnv : CleanupEnv
deriving DecidableEq, Repr

namespace Windows

/-- Probe oracle for the windows `pidExists`: the `EnumProcesses` outcome and
the `OpenProcess`/`WaitForSingleObject` fallback outcomes. -/
structure ProbeEnv where
  /-- `windows.EnumProcesses` succeeded. -/
  enumOk : Bool
  /-- The enumerated process-id list. -/
  procs : List Int
  /-- `OpenProcess` failed with ERROR_ACCESS_DENIED. -/
  openAccessDenied : Bool
  /-- `OpenProcess` failed with ERROR_INVALID_PARAMETER. -/
  openInvalidParameter : Bool
  /-- `OpenProcess` failed with some other error. -/
  openOtherErr : Bool
  /-- `WaitForSingleObject` returned WAIT_TIMEOUT (process still running). -/
  waitStillRunning : Bool
deriving DecidableEq, Repr

/-- Windows-variant `pidExists`: for pids not divisible by 4, consult the
process enumeration when it yields anything; otherwise probe through
`OpenProcess` + `WaitForSingleObject`. Every step only observes the process,
so the returned pair is (reported liveness, process alive afterwards) with
the second component always equal to `alive`. -/
def pidExists (pid : Int) (alive : Bool) (env : ProbeEnv) : Bool × Bool :=
  if pid % 4 ≠ 0 ∧ env.enumOk ∧ env.procs ≠ [] then
    (env.procs.contains pid, alive)
  else if env.openAccessDenied then (true, alive)
  else if env.openInvalidParameter then (false, alive)
  else if env.openOtherErr then (false, alive)
  else (env.waitStillRunning, alive)

/-- Windows-variant `onlyCleanupContainer(container, config, force)`: stop
stats collection, mark Dead and checkpoint (without taking the container
lock), and only when `force` is false release the writable layer or the
snapshot lease — recording a failure on the removal-error field but NOT
returning it (both `return err` statements are commented out in the source).
Then always remove the root (failure only logged), deregister, release names
and labels, clear the removal-error field, and log "destroy" from a fresh
goroutine. Returns nil on every path. -/
def onlyCleanupContainer (c : Container) (_config : RmConfig) (force : Bool)
    (env : CleanupEnv) : Option Err × Container × List Event :=
  let c1 := { c with dead := true }
  let tr1 := [Event.statsStop, Event.setDead, Event.checkpoint]
  let step :=
    if force then (c1, tr1)
    else if c1.hasRWLayer then
      (match env.releaseLayerErr with
       | some e => { c1 with removalError := some e, hasRWLayer := false }
       | none => { c1 with hasRWLayer := false },
       tr1 ++ [Event.releaseLayer])
    else if env.usesSnapshotter then
      (match env.leaseDeleteErr with
       | some e => { c1 with removalError := some e }
       | none => c1,
       tr1 ++ [Event.leaseDelete])
    else (c1, tr1)
  (none, { step.1 with removalError := none },
    step.2 ++ [Event.removeAll, Event.linkDelete, Event.releaseLabel,
      Event.deregister, Event.replicaDelete, Event.removeMountPoints,
      Event.releaseNames, Event.logDestroy])

/-- Windows-variant `ContainerRm`: resolve the name (NotFound propagated);
`Pid == 0` goes straight to `onlyCleanupContainer(..., true)` and returns
nil; otherwise take the removal-in-progress guard (Conflict when already
set), re-check registration (silent nil when deregistered meanwhile), then
dispatch to `rmLink` or `cleanupContainer`. This variant never consults the
liveness probe. -/
def ContainerRm (_name : String) (config : RmConfig) (env : RmEnv) :
    Outcome × List Event :=
  match env.resolved with
  | none => (.ret (some .notFound), [])
  | some ctr =>
    if ctr.pid = 0 then
      (.ret none, (onlyCleanupContainer ctr config true env.cleanupEnv).2.2)
    else if env.inProgress then (.ret (some .conflict), [])
    else if env.stillRegistered then
      if config.removeLink then (.ret env.rmLinkErr, [Event.rmLink])
      else
        match cleanupContainer ctr config env.cleanupEnv with
        | (out, _, tr) => (out, tr)
    else (.ret none, [])

/-- Windows-variant `OnlyContainerRm`: a name that does not resolve is
swallowed (nil); `force` runs the simplified cleanup and returns nil with the
cleanup error only logged; `Pid == 0` likewise (with force passed as true);
a live container without `force` is left untouched and nil is returned. -/
def OnlyContainerRm (_name : String) (config : RmConfig) (force : Bool)
    (env : RmEnv) : Option Err × List Event :=
  match env.resolved with
  | none => (none, [])
  | some ctr =>
    if force then
      (none, (onlyCleanupContainer ctr config force env.cleanupEnv).2.2)
    else if ctr.pid = 0 then
      (none, (onlyCleanupContainer ctr config true env.cleanupEnv).2.2)
    else (none, [])

end Windows

namespace Unix

/-- Unix-variant `pidExists`: `os.FindProcess` (which always succeeds on
unix) followed by `process.Signal(os.Kill)`. The probe therefore delivers
SIGKILL: delivery succeeds — reporting the process as alive — exactly when
the process was alive, and the delivered signal terminates it. Returns
(reported liveness, process alive afterwards); the second component is false
either way: a dead process stays dead and a live one has just been killed. -/
def pidExists (_pid : Int) (alive : Bool) : Bool × Bool :=
  (alive, false)

/-- Unix-variant `onlyCleanupContainer(container, config)`: mark Dead,
checkpoint, remove the root (failure only logged), deregister, release names
and labels, clear the removal-error field and log "destroy". Neither the
writable layer nor the snapshot lease is ever released, and nil is returned
on every path. -/
def onlyCleanupContainer (c : Container) (_config : RmConfig)
    (_env : CleanupEnv) : Option Err × Container × List Event :=
  (none, { c with dead := true, removalError := none },
    [Event.setDead, Event.checkpoint, Event.removeAll, Event.linkDelete,
     Event.releaseLabel, Event.deregister, Event.replicaDelete,
     Event.removeMountPoints, Event.releaseNames, Event.logDestroy])

/-- Unix-variant `ContainerRm`: resolve the name (NotFound propagated); fast
path for `Pid == 0`, and for `Pid > 0` with the probe reporting the process
gone (note that the probe itself SIGKILLs a process that is still alive);
otherwise guard, re-check registration, and dispatch to `rmLink` or
`cleanupContainer` exactly as the other variant. -/
def ContainerRm (_name : String) (config : RmConfig) (env : RmEnv) :
    Outcome × List Event :=
  match env.resolved with
  | none => (.ret (some .notFound), [])
  | some ctr =>
    if ctr.pid = 0 then
      match onlyCleanupContainer ctr config env.cleanupEnv with
      | (e, _, tr) => (.ret e, tr)
    else if 0 < ctr.pid ∧ (pidExists ctr.pid env.procAlive).1 = false then
      match onlyCleanupContainer ctr config env.cleanupEnv with
      | (e, _, tr) => (.ret e, tr)
    else if env.inProgress then (.ret (some .conflict), [])
    else if env.stillRegistered then
      if config.removeLink then (.ret env.rmLinkErr, [Event.rmLink])
      else
        match cleanupContainer ctr config env.cleanupEnv with
        | (out, _, tr) => (out, tr)
    else (.ret none, [])

end Unix

/-- Irreversible resource-release actions: writable-layer release, snapshot
lease deletion, recursive root-directory removal. -/
def isRelease : Event → Bool
  | .releaseLayer => true
  | .leaseDelete => true
  | .removeAll => true
  | _ => false

/-- The trace commits the Dead mark — `Lock; Dead := true; CheckpointTo;
Unlock` — strictly before any irreversible release action appears. -/
def deadCommittedBeforeRelease : List Event → Bool
  | .lock :: .setDead :: .checkpoint :: .unlock :: _ => true
  | e :: tr => !isRelease e && deadCommittedBeforeRelease tr
  | [] => false

/-- Number of occurrences of the event `x` in a trace. -/
def countEvent (x : Event) : List Event → Nat
  | [] => 0
  | e :: tr => (if e = x then 1 else 0) + countEvent x tr

/-- The oracle outcomes of a `Kill` run are consistent with `aliveAfter`,
the truth of whether the container's process is still alive when `Kill`
returns: a wait on the not-running transition can only succeed once the
process has exited, and `errNoSuchProcess` is only produced when the process
is already gone. -/
def KillEnvConsistent (env : KillEnv) (aliveAfter : Bool) : Prop :=
  (env.signalErr = some .noSuchProcess → aliveAfter = false) ∧
  (env.exitsWithinWait = true → aliveAfter = false) ∧
  (env.directKillErr = some .noSuchProcess → aliveAfter = false) ∧
  (env.exitsWithinGrace = true → aliveAfter = false)

/-- Events a `containerStop` run can emit. -/
def isStopEvent : Event → Bool
  | .signalSent _ => true
  | .killInvoked => true
  | .logStop => true
  | _ => false

/-- A removal configuration with every flag off. -/
def cfgPlain : RmConfig :=
  { forceRemove := false, removeVolume := false, removeLink := false }

/-- A kill oracle in which nothing ever reports the process gone. -/
def killEnvNoExit : KillEnv :=
  { signalErr := none, exitsWithinWait := false, directKillErr := none,
    exitsWithinGrace := false }

/-- A kill oracle in which the first bounded wait observes the exit. -/
def killEnvExits : KillEnv :=
  { signalErr := none, exitsWithinWait := true, directKillErr := none,
    exitsWithinGrace := false }

/-- A stop oracle in which the container never exits. -/
def stopEnvStuck : StopEnv :=
  { parsedSignal := none, signalErr := none, exitsWithinWait := false,
    exitsEventually := false, killEnv := killEnvNoExit,
    exitsWithinKillGrace := false }

/-- A stop oracle in which the container exits within the bounded wait. -/
def stopEnvExits : StopEnv :=
  { parsedSignal := none, signalErr := none, exitsWithinWait := true,
    exitsEventually := true, killEnv := killEnvExits,
    exitsWithinKillGrace := false }

/-- A concrete running container. -/
def sampleRunning : Container :=
  { id := "c0", pid := 7, running := true, dead := false, removed := false,
    hasRWLayer := true, removalError := none, stopSignal := 15,
    stopTimeout := 10, root := "/var/lib/c0" }

/-- A concrete stopped container that still owns a writable layer. -/
def sampleStoppedLayer : Container :=
  { id := "c1", pid := 0, running := false, dead := false, removed := false,
    hasRWLayer := true, removalError := none, stopSignal := 15,
    stopTimeout := 10, root := "/var/lib/c1" }

/-- A cleanup oracle in which every collaborator succeeds. -/
def envAllOk : CleanupEnv :=
  { killEnv := killEnvExits, stopEnv := stopEnvExits, checkpointErr := none,
    releaseLayerErr := none, usesSnapshotter := false, leaseDeleteErr := none,
    removeAllErr := none, removeMountPointsErr := none }

/-- A cleanup oracle in which the writable-layer release fails. -/
def envLayerFail : CleanupEnv :=
  { envAllOk with releaseLayerErr := some (.sysFail 0) }

/-- A removal oracle for a resolvable, registered container with a live
process and no competing removal. -/
def rmEnvOf (c : Container) : RmEnv :=
  { resolved := some c, inProgress := false, stillRegistered := true,
    procAlive := true, rmLinkErr := none, cleanupEnv := envAllOk }

/-- A removal configuration with only the force flag on. -/
def cfgForce : RmConfig :=
  { forceRemove := true, removeVolume := false, removeLink := false }

/-- A cleanup oracle whose forced kill never observes an exit event. -/
def envKillFail : CleanupEnv :=
  { envAllOk with killEnv := killEnvNoExit }

/-- A windows probe oracle: the enumeration succeeds and lists pids 1, 4
and 8. -/
def probeEnvEnum : Windows.ProbeEnv :=
  { enumOk := true, procs := [1, 4, 8], openAccessDenied := false,
    openInvalidParameter := false, openOtherErr := false,
    waitStillRunning := false }

/-- A removal oracle: the container resolves, its process is dead, and a
competing removal already holds the in-progress guard. -/
def rmEnvConflict : RmEnv :=
  { resolved := some sampleRunning, inProgress := true,
    stillRegistered := true, procAlive := false, rmLinkErr := none,
    cleanupEnv := envAllOk }

/-- A removal oracle for a name that no longer resolves (the container was
deregistered by a completed prior removal). -/
def rmEnvUnresolved : RmEnv :=
  { resolved := none, inProgress := false, stillRegistered := true,
    procAlive := true, rmLinkErr := none, cleanupEnv := envAllOk }

/-- A removal oracle for the race path: the stale reference still resolves
but the post-guard registry re-check finds the container gone. -/
def rmEnvDereg : RmEnv :=
  { resolved := some sampleRunning, inProgress := false,
    stillRegistered := false, procAlive := true, rmLinkErr := none,
    cleanupEnv := envAllOk }

theorem countEvent_append (x : Event) (l₁ l₂ : List Event) :
    countEvent x (l₁ ++ l₂) = countEvent x l₁ + countEvent x l₂ := by
  induction l₁ with
  | nil => simp [countEvent]
  | cons e tl ih => simp [countEvent, ih]; omega

theorem countEvent_eq_zero (x : Event) (l : List Event)
    (h : ∀ e ∈ l, e ≠ x) : countEvent x l = 0 := by
  induction l with
  | nil => rfl
  | cons e tl ih =>
    have h1 := h e (by simp)
    have h2 : ∀ e ∈ tl, e ≠ x := fun y hy => h y (by simp [hy])
    simp [countEvent, h1, ih h2]

theorem not_mem_of_ne (x : Event) (l : List Event)
    (h : ∀ e ∈ l, e ≠ x) : x ∉ l := fun hx => h x hx rfl

theorem isStopEvent_release_free {e : Event} (h : isStopEvent e = true) :
    isRelease e = false ∧ e ≠ Event.lock := by
  cases e <;> simp_all [isStopEvent, isRelease]

theorem deadCommittedBeforeRelease_append (l₁ l₂ : List Event)
    (h : ∀ e ∈ l₁, isRelease e = false ∧ e ≠ Event.lock) :
    deadCommittedBeforeRelease (l₁ ++ l₂) = deadCommittedBeforeRelease l₂ := by
  induction l₁ with
  | nil => rfl
  | cons e tl ih =>
    have he := h e (by simp)
    have htl : ∀ x ∈ tl, isRelease x = false ∧ x ≠ Event.lock :=
      fun x hx => h x (by simp [hx])
    have ihh := ih htl
    cases e <;> simp_all [deadCommittedBeforeRelease, isRelease]

theorem containerStop_stop_events (pc : Bool) (c : Container)
    (opts : StopOptions) (env : StopEnv) :
    ∀ e ∈ (containerStop pc c opts env).2.2, isStopEvent e = true := by
  have hall : ((containerStop pc c opts env).2.2).all isStopEvent = true := by
    unfold containerStop
    (repeat' split) <;> rfl
  exact List.all_eq_true.mp hall

theorem containerStop_event_free (pc : Bool) (c : Container)
    (opts : StopOptions) (env : StopEnv) (x : Event)
    (hx : isStopEvent x = false) :
    countEvent x (containerStop pc c opts env).2.2 = 0 ∧
    x ∉ (containerStop pc c opts env).2.2 := by
  have hne : ∀ e ∈ (containerStop pc c opts env).2.2, e ≠ x := by
    intro e he heq
    have := containerStop_stop_events pc c opts env e he
    rw [heq, hx] at this
    exact Bool.false_ne_true this
  exact ⟨countEvent_eq_zero x _ hne, not_mem_of_ne x _ hne⟩

theorem Kill_preserves (c : Container) (env : KillEnv) :
    ((Kill c env).2).hasRWLayer = c.hasRWLayer ∧
    ((Kill c env).2).removed = c.removed ∧
    ((Kill c env).2).removalError = c.removalError := by
  unfold Kill
  (repeat' split) <;> exact ⟨rfl, rfl, rfl⟩

theorem containerStop_preserves (pc : Bool) (c : Container)
    (opts : StopOptions) (env : StopEnv) :
    ((containerStop pc c opts env).2.1).hasRWLayer = c.hasRWLayer ∧
    ((containerStop pc c opts env).2.1).removed = c.removed ∧
    ((containerStop pc c opts env).2.1).removalError = c.removalError := by
  have hK := Kill_preserves c env.killEnv
  unfold containerStop
  (repeat' split) <;> first
    | exact ⟨rfl, rfl, rfl⟩
    | simp_all

theorem dCBR_shape (pre trS rest : List Event)
    (hpre : ∀ e ∈ pre, isRelease e = false ∧ e ≠ Event.lock)
    (hS : ∀ e ∈ trS, isRelease e = false ∧ e ≠ Event.lock) :
    deadCommittedBeforeRelease
      (pre ++ (Event.statsStop :: (trS ++ (Event.lock :: Event.setDead ::
        Event.checkpoint :: Event.unlock :: rest)))) = true := by
  rw [deadCommittedBeforeRelease_append pre _ hpre]
  show deadCommittedBeforeRelease
    (trS ++ (Event.lock :: Event.setDead :: Event.checkpoint ::
      Event.unlock :: rest)) = true
  rw [deadCommittedBeforeRelease_append trS _ hS]
  rfl

theorem cleanupTeardown_dead_before_release (c : Container) (env : CleanupEnv)
    (pre : List Event)
    (hpre : ∀ e ∈ pre, isRelease e = false ∧ e ≠ Event.lock)
    (h : (cleanupTeardown c env pre).1 = .ret none) :
    deadCommittedBeforeRelease (cleanupTeardown c env pre).2.2 = true := by
  have hsafe : ∀ e ∈ (containerStop false c { signal := "", timeout := some 3 }
      env.stopEnv).2.2, isRelease e = false ∧ e ≠ Event.lock :=
    fun e he => isStopEvent_release_free (containerStop_stop_events _ _ _ _ e he)
  unfold cleanupTeardown cleanupFinish at h ⊢
  rcases hS : containerStop false c { signal := "", timeout := some 3 }
    env.stopEnv with ⟨out, c1, trS⟩
  rw [hS] at h hsafe
  cases out with
  | blocked => simp at h
  | ret r =>
    cases r with
    | some e => simp at h
    | none =>
      by_cases hrw : c1.hasRWLayer = true <;>
        by_cases hsn : env.usesSnapshotter = true <;>
        rcases hrl : env.releaseLayerErr with _ | e₁ <;>
        rcases hld : env.leaseDeleteErr with _ | e₂ <;>
        rcases hra : env.removeAllErr with _ | e₃ <;>
        (try simp only [hrw, hsn, Bool.false_eq_true, eq_self_iff_true,
          if_true, if_false, List.append_assoc, List.cons_append,
          List.nil_append, List.singleton_append] at h ⊢) <;>
        exact dCBR_shape pre trS _ hpre hsafe

/-- Claim C1: in every successful full removal (`cleanupContainer` returning
nil), the container's Dead flag is set — under the container's exclusive
lock, followed by a checkpoint attempt — strictly before any irreversible
resource release begins: before the writable-layer release or the lease
deletion, and before the recursive deletion of the container's root
directory. -/
theorem cleanupContainer_dead_before_release (c : Container)
    (config : RmConfig) (env : CleanupEnv)
    (h : (cleanupContainer c config env).1 = .ret none) :
    deadCommittedBeforeRelease (cleanupContainer c config env).2.2 = true := by
  unfold cleanupContainer at h ⊢
  by_cases hr : c.running = true
  · rw [if_pos hr] at h ⊢
    by_cases hf : config.forceRemove = true
    · rw [if_pos hf] at h ⊢
      rcases hK : Kill c env.killEnv with ⟨kerr, c1⟩
      rw [hK] at h
      cases kerr with
      | some e => simp at h
      | none =>
        exact cleanupTeardown_dead_before_release c1 env [Event.killInvoked]
          (by decide) h
    · rw [if_neg hf] at h; simp at h
  · rw [if_neg hr] at h ⊢
    exact cleanupTeardown_dead_before_release c env [] (by decide) h

/-- Witness for C1: a concrete successful removal of a stopped container
that owns a writable layer. -/
theorem cleanupContainer_dead_before_release_witness :
    deadCommittedBeforeRelease
      (cleanupContainer sampleStoppedLayer cfgPlain envAllOk).2.2 = true :=
  cleanupContainer_dead_before_release sampleStoppedLayer cfgPlain envAllOk
    (by decide)

/-- Claim C2: for all reachable container states, `Kill` either returns
success with the container observably not-running — under oracle outcomes
consistent with `aliveAfter`, the ground truth of whether the container's
process is still alive when `Kill` returns — or returns an error; in
particular it returns the explicit "did not receive an exit event" error
when both the bounded wait and the post-direct-signal 2-second wait expire;
it never returns success while the container is still running. -/
theorem Kill_no_false_success (c : Container) (env : KillEnv)
    (aliveAfter : Bool) (hc : KillEnvConsistent env aliveAfter) :
    ((Kill c env).1 = none → aliveAfter = false) ∧
    (c.running = true → env.signalErr ≠ some Err.noSuchProcess →
      env.exitsWithinWait = false → env.directKillErr = none →
      env.exitsWithinGrace = false →
      (Kill c env).1 = some Err.noExitEvent) := by
  obtain ⟨h1, h2, h3, h4⟩ := hc
  constructor
  · intro h
    unfold Kill at h
    split at h
    case isFalse => exact Option.noConfusion h
    split at h
    case isTrue hsp => exact h1 hsp
    split at h
    case isTrue hw => exact h2 hw
    split at h
    · rename_i e hd
      split at h
      · rename_i hesp
        exact h3 (hesp ▸ hd)
      · exact Option.noConfusion h
    · split at h
      case isTrue hg => exact h4 hg
      case isFalse => exact Option.noConfusion h
  · intro hr hsp hw hd hg
    simp [Kill, hr, hsp, hw, hd, hg]

/-- Witness for C2: a concrete run in which the SIGKILL is delivered but no
exit event ever arrives, producing the explicit error. -/
theorem Kill_no_false_success_witness :
    (Kill sampleRunning killEnvNoExit).1 = some Err.noExitEvent :=
  (Kill_no_false_success sampleRunning killEnvNoExit true
    (by unfold KillEnvConsistent; refine ⟨?_, ?_, ?_, ?_⟩ <;> intro h <;>
      simp [killEnvNoExit] at h)).2 rfl (by decide) rfl rfl rfl

theorem containerStop_neg_no_kill (pc : Bool) (c : Container)
    (opts : StopOptions) (env : StopEnv)
    (hT : opts.timeout.getD c.stopTimeout < 0) :
    countEvent Event.killInvoked (containerStop pc c opts env).2.2 = 0 := by
  unfold containerStop
  by_cases hr : c.running = true
  · rw [if_pos hr]
    split
    · simp [countEvent]
    · rw [if_neg (not_le.mpr hT)]
      cases hev : env.exitsEventually <;> simp [hev, countEvent]
  · rw [if_neg hr]
    simp [countEvent]

theorem containerStop_neg_blocked (pc : Bool) (c : Container)
    (opts : StopOptions) (env : StopEnv)
    (hT : opts.timeout.getD c.stopTimeout < 0) (hr : c.running = true)
    (hs : opts.signal = "" ∨ env.parsedSignal ≠ none)
    (hev : env.exitsEventually = false) :
    (containerStop pc c opts env).1 = .blocked := by
  unfold containerStop
  rw [if_pos hr]
  split
  · rename_i hsig
    exfalso
    by_cases hemp : opts.signal = ""
    · rw [if_pos hemp] at hsig
      exact Option.noConfusion hsig
    · rw [if_neg hemp] at hsig
      rcases hs with hs | hs
      · exact hemp hs
      · exact hs hsig
  · rw [if_neg (not_le.mpr hT)]
    simp [hev]

/-- Claim C3: in `containerStop`, for every effective timeout `T ≥ 0`, if the
container does not transition to not-running within the computed wait, `Kill`
is invoked exactly once; for every effective timeout `T < 0`, `Kill` is never
invoked regardless of elapsed time. -/
theorem containerStop_kill_exactly_once (pc : Bool) (c : Container)
    (opts : StopOptions) (env : StopEnv) :
    (0 ≤ opts.timeout.getD c.stopTimeout → c.running = true →
      (opts.signal = "" ∨ env.parsedSignal ≠ none) →
      env.exitsWithinWait = false →
      countEvent Event.killInvoked (containerStop pc c opts env).2.2 = 1) ∧
    (opts.timeout.getD c.stopTimeout < 0 →
      countEvent Event.killInvoked (containerStop pc c opts env).2.2 = 0) := by
  constructor
  · intro hT hr hs hw
    unfold containerStop
    rw [if_pos hr]
    split
    · rename_i hsig
      exfalso
      by_cases hemp : opts.signal = ""
      · rw [if_pos hemp] at hsig
        exact Option.noConfusion hsig
      · rw [if_neg hemp] at hsig
        rcases hs with hs | hs
        · exact hemp hs
        · exact hs hsig
    · rw [if_pos hT]
      rcases hK : Kill c env.killEnv with ⟨kerr, c2⟩
      cases kerr <;> cases hkg : env.exitsWithinKillGrace <;>
        simp [hw, hkg, countEvent]
  · exact containerStop_neg_no_kill pc c opts env

/-- Witness for C3: with the fixed 3-second timeout and a container that
never exits, exactly one `Kill` runs; with timeout −1 none does. -/
theorem containerStop_kill_exactly_once_witness :
    countEvent Event.killInvoked
      (containerStop false sampleRunning { signal := "", timeout := some 3 }
        stopEnvStuck).2.2 = 1 ∧
    countEvent Event.killInvoked
      (containerStop false sampleRunning { signal := "", timeout := some (-1) }
        stopEnvStuck).2.2 = 0 :=
  ⟨(containerStop_kill_exactly_once false sampleRunning
      { signal := "", timeout := some 3 } stopEnvStuck).1 (by decide) rfl
      (Or.inl rfl) rfl,
   (containerStop_kill_exactly_once false sampleRunning
      { signal := "", timeout := some (-1) } stopEnvStuck).2 (by decide)⟩

/-- Counterexample for C4: with effective timeout −1, a running container
that never exits, and the caller's request context cancelled, the wait is
not interrupted and no cancellation error is propagated — the call blocks
forever, and behaves identically whether or not the caller's context is
cancelled, because the source discards that context. -/
theorem containerStop_parent_cancel_counterexample :
    (containerStop true sampleRunning { signal := "", timeout := some (-1) }
        stopEnvStuck).1 = .blocked ∧
    containerStop true sampleRunning { signal := "", timeout := some (-1) }
        stopEnvStuck
      = containerStop false sampleRunning
          { signal := "", timeout := some (-1) } stopEnvStuck :=
  ⟨by decide, rfl⟩

/-- Claim C4 amended: with a negative effective timeout the wait is
unbounded and no forced kill is ever attempted; but the caller's request
context is discarded by `containerStop` (the source binds it to `_` and
waits on a detached background context), so caller cancellation is not
honored: the result is independent of the caller's context, and when the
container never exits the call blocks forever rather than returning a
cancellation error. -/
theorem containerStop_negative_timeout_detached (pc qc : Bool)
    (c : Container) (opts : StopOptions) (env : StopEnv) :
    containerStop pc c opts env = containerStop qc c opts env ∧
    (opts.timeout.getD c.stopTimeout < 0 →
      countEvent Event.killInvoked (containerStop pc c opts env).2.2 = 0 ∧
      (c.running = true → (opts.signal = "" ∨ env.parsedSignal ≠ none) →
        env.exitsEventually = false →
        (containerStop pc c opts env).1 = .blocked)) :=
  ⟨rfl, fun hT => ⟨containerStop_neg_no_kill pc c opts env hT,
    fun hr hs hev => containerStop_neg_blocked pc c opts env hT hr hs hev⟩⟩

/-- Witness for the amended C4 at a concrete negative-timeout run. -/
theorem containerStop_negative_timeout_detached_witness :
    countEvent Event.killInvoked
      (containerStop true sampleRunning { signal := "", timeout := some (-1) }
        stopEnvStuck).2.2 = 0 ∧
    (containerStop true sampleRunning { signal := "", timeout := some (-1) }
        stopEnvStuck).1 = .blocked := by
  have h := (containerStop_negative_timeout_detached true false sampleRunning
    { signal := "", timeout := some (-1) } stopEnvStuck).2 (by decide)
  exact ⟨h.1, h.2 rfl (Or.inl rfl) rfl⟩

/-- Claim C5: a container still Running when `cleanupContainer` is entered
is rejected with a Conflict error and no teardown unless the force flag is
set; when forced, `Kill` is invoked first, and a `Kill` failure makes
`cleanupContainer` return an error having performed no teardown step (its
whole trace is the one kill invocation). -/
theorem cleanupContainer_running_gate (c : Container) (config : RmConfig)
    (env : CleanupEnv) (hr : c.running = true) :
    (config.forceRemove = false →
      cleanupContainer c config env = (.ret (some .conflict), c, [])) ∧
    (∀ e, config.forceRemove = true → (Kill c env.killEnv).1 = some e →
      (cleanupContainer c config env).1 = .ret (some .couldNotKill) ∧
      (cleanupContainer c config env).2.2 = [Event.killInvoked]) := by
  constructor
  · intro hf
    unfold cleanupContainer
    rw [if_pos hr, if_neg (by simp [hf])]
  · intro e hf hK
    unfold cleanupContainer
    rw [if_pos hr, if_pos hf]
    rcases hKv : Kill c env.killEnv with ⟨kerr, c1⟩
    rw [hKv] at hK
    cases kerr
    · exact Option.noConfusion hK
    · exact ⟨rfl, rfl⟩

/-- Witness for C5: unforced removal of a running container gets Conflict;
forced removal whose kill never sees an exit event aborts after the kill. -/
theorem cleanupContainer_running_gate_witness :
    cleanupContainer sampleRunning cfgPlain envKillFail
      = (.ret (some .conflict), sampleRunning, []) ∧
    (cleanupContainer sampleRunning cfgForce envKillFail).1
      = .ret (some .couldNotKill) :=
  ⟨(cleanupContainer_running_gate sampleRunning cfgPlain envKillFail rfl).1 rfl,
   ((cleanupContainer_running_gate sampleRunning cfgForce envKillFail rfl).2
      Err.noExitEvent rfl (by decide)).1⟩

theorem cleanupTeardown_release_counts (c : Container) (env : CleanupEnv)
    (pre : List Event)
    (h : (cleanupTeardown c env pre).1 = .ret none) :
    countEvent Event.releaseLayer (cleanupTeardown c env pre).2.2
      = countEvent Event.releaseLayer pre
        + (if c.hasRWLayer = true then 1 else 0) ∧
    countEvent Event.leaseDelete (cleanupTeardown c env pre).2.2
      = countEvent Event.leaseDelete pre
        + (if c.hasRWLayer = true then 0
           else if env.usesSnapshotter = true then 1 else 0) := by
  have hfree1 := (containerStop_event_free false c
    { signal := "", timeout := some 3 } env.stopEnv Event.releaseLayer rfl).1
  have hfree2 := (containerStop_event_free false c
    { signal := "", timeout := some 3 } env.stopEnv Event.leaseDelete rfl).1
  have hp := (containerStop_preserves false c
    { signal := "", timeout := some 3 } env.stopEnv).1
  unfold cleanupTeardown cleanupFinish at h ⊢
  rcases hS : containerStop false c { signal := "", timeout := some 3 }
    env.stopEnv with ⟨out, c1, trS⟩
  rw [hS] at h hfree1 hfree2 hp
  cases out with
  | blocked => simp at h
  | ret r =>
    cases r with
    | some e => simp at h
    | none =>
      have h1 : countEvent Event.releaseLayer trS = 0 := hfree1
      have h2 : countEvent Event.leaseDelete trS = 0 := hfree2
      have hp1 : c1.hasRWLayer = c.hasRWLayer := hp
      rw [← hp1]
      by_cases hrw : c1.hasRWLayer = true <;>
        by_cases hsn : env.usesSnapshotter = true <;>
        rcases hrl : env.releaseLayerErr with _ | e₁ <;>
        rcases hld : env.leaseDeleteErr with _ | e₂ <;>
        rcases hra : env.removeAllErr with _ | e₃ <;>
        (try simp only [hrw, hsn, hrl, hld, hra, Bool.false_eq_true,
          eq_self_iff_true, if_true, if_false] at h ⊢) <;>
        first
          | (simp only [Outcome.ret.injEq] at h; exact Option.noConfusion h)
          | (constructor <;>
              simp [countEvent_append, countEvent, h1, h2, hrw, hsn])

theorem cleanupTeardown_layer_abort (c : Container) (env : CleanupEnv)
    (pre : List Event) (e : Err)
    (hrw : c.hasRWLayer = true) (hrl : env.releaseLayerErr = some e)
    (hpre : Event.releaseLayer ∉ pre ∧ Event.removeAll ∉ pre ∧
      Event.deregister ∉ pre ∧ Event.setRemoved ∉ pre)
    (hm : Event.releaseLayer ∈ (cleanupTeardown c env pre).2.2) :
    (cleanupTeardown c env pre).1 = .ret (some e) ∧
    (cleanupTeardown c env pre).2.1.removalError = some e ∧
    (cleanupTeardown c env pre).2.1.removed = c.removed ∧
    Event.removeAll ∉ (cleanupTeardown c env pre).2.2 ∧
    Event.deregister ∉ (cleanupTeardown c env pre).2.2 ∧
    Event.setRemoved ∉ (cleanupTeardown c env pre).2.2 := by
  obtain ⟨hpre1, hpre2, hpre3, hpre4⟩ := hpre
  have hfree1 := (containerStop_event_free false c
    { signal := "", timeout := some 3 } env.stopEnv Event.releaseLayer rfl).2
  have hfree2 := (containerStop_event_free false c
    { signal := "", timeout := some 3 } env.stopEnv Event.removeAll rfl).2
  have hfree3 := (containerStop_event_free false c
    { signal := "", timeout := some 3 } env.stopEnv Event.deregister rfl).2
  have hfree4 := (containerStop_event_free false c
    { signal := "", timeout := some 3 } env.stopEnv Event.setRemoved rfl).2
  have hp := containerStop_preserves false c
    { signal := "", timeout := some 3 } env.stopEnv
  unfold cleanupTeardown cleanupFinish at hm ⊢
  rcases hS : containerStop false c { signal := "", timeout := some 3 }
    env.stopEnv with ⟨out, c1, trS⟩
  rw [hS] at hm hfree1 hfree2 hfree3 hfree4 hp
  have hrw1 : c1.hasRWLayer = true := hp.1.trans hrw
  have hrm : c1.removed = c.removed := hp.2.1
  have hf1 : Event.releaseLayer ∉ trS := hfree1
  have hf2 : Event.removeAll ∉ trS := hfree2
  have hf3 : Event.deregister ∉ trS := hfree3
  have hf4 : Event.setRemoved ∉ trS := hfree4
  cases out with
  | blocked => simp_all [List.mem_append, List.mem_cons]
  | ret r =>
    cases r with
    | some e' => simp_all [List.mem_append, List.mem_cons]
    | none =>
      rw [hrl] at hm ⊢
      simp only [hrw1, eq_self_iff_true, if_true] at hm ⊢
      refine ⟨?_, ?_, ?_, ?_, ?_, ?_⟩ <;>
        simp_all [List.mem_append, List.mem_cons]

theorem cleanupTeardown_lease_abort (c : Container) (env : CleanupEnv)
    (pre : List Event) (e : Err)
    (hrw : c.hasRWLayer = false) (hsn : env.usesSnapshotter = true)
    (hld : env.leaseDeleteErr = some e)
    (hpre : Event.leaseDelete ∉ pre ∧ Event.removeAll ∉ pre ∧
      Event.deregister ∉ pre ∧ Event.setRemoved ∉ pre)
    (hm : Event.leaseDelete ∈ (cleanupTeardown c env pre).2.2) :
    (cleanupTeardown c env pre).1 = .ret (some e) ∧
    (cleanupTeardown c env pre).2.1.removalError = some e ∧
    (cleanupTeardown c env pre).2.1.removed = c.removed ∧
    Event.removeAll ∉ (cleanupTeardown c env pre).2.2 ∧
    Event.deregister ∉ (cleanupTeardown c env pre).2.2 ∧
    Event.setRemoved ∉ (cleanupTeardown c env pre).2.2 := by
  obtain ⟨hpre1, hpre2, hpre3, hpre4⟩ := hpre
  have hfree1 := (containerStop_event_free false c
    { signal := "", timeout := some 3 } env.stopEnv Event.leaseDelete rfl).2
  have hfree2 := (containerStop_event_free false c
    { signal := "", timeout := some 3 } env.stopEnv Event.removeAll rfl).2
  have hfree3 := (containerStop_event_free false c
    { signal := "", timeout := some 3 } env.stopEnv Event.deregister rfl).2
  have hfree4 := (containerStop_event_free false c
    { signal := "", timeout := some 3 } env.stopEnv Event.setRemoved rfl).2
  have hp := containerStop_preserves false c
    { signal := "", timeout := some 3 } env.stopEnv
  unfold cleanupTeardown cleanupFinish at hm ⊢
  rcases hS : containerStop false c { signal := "", timeout := some 3 }
    env.stopEnv with ⟨out, c1, trS⟩
  rw [hS] at hm hfree1 hfree2 hfree3 hfree4 hp
  have hrw1 : c1.hasRWLayer = false := hp.1.trans hrw
  have hrm : c1.removed = c.removed := hp.2.1
  have hf1 : Event.leaseDelete ∉ trS := hfree1
  have hf2 : Event.removeAll ∉ trS := hfree2
  have hf3 : Event.deregister ∉ trS := hfree3
  have hf4 : Event.setRemoved ∉ trS := hfree4
  cases out with
  | blocked => simp_all [List.mem_append, List.mem_cons]
  | ret r =>
    cases r with
    | some e' => simp_all [List.mem_append, List.mem_cons]
    | none =>
      rw [hld] at hm ⊢
      simp only [hrw1, hsn, Bool.false_eq_true, eq_self_iff_true, if_true,
        if_false] at hm ⊢
      refine ⟨?_, ?_, ?_, ?_, ?_, ?_⟩ <;>
        simp_all [List.mem_append, List.mem_cons]

theorem cleanupContainer_to_teardown (c : Container) (config : RmConfig)
    (env : CleanupEnv) :
    (∃ c0 pre, cleanupContainer c config env = cleanupTeardown c0 env pre ∧
      c0.hasRWLayer = c.hasRWLayer ∧ c0.removed = c.removed ∧
      (pre = [] ∨ pre = [Event.killInvoked])) ∨
    cleanupContainer c config env = (.ret (some .conflict), c, []) ∨
    (∃ c1, cleanupContainer c config env
      = (.ret (some .couldNotKill), c1, [Event.killInvoked])) := by
  unfold cleanupContainer
  by_cases hr : c.running = true
  · rw [if_pos hr]
    by_cases hf : config.forceRemove = true
    · rw [if_pos hf]
      rcases hK : Kill c env.killEnv with ⟨kerr, c1⟩
      have hkp := Kill_preserves c env.killEnv
      rw [hK] at hkp
      cases kerr
      · exact Or.inl ⟨c1, [Event.killInvoked], rfl, hkp.1, hkp.2.1, Or.inr rfl⟩
      · exact Or.inr (Or.inr ⟨c1, rfl⟩)
    · rw [if_neg hf]
      exact Or.inr (Or.inl rfl)
  · rw [if_neg hr]
    exact Or.inl ⟨c, [], rfl, rfl, rfl, Or.inl rfl⟩

/-- Counterexample for C6: in the simplified cleanup engine
(`onlyCleanupContainer` of the windows variant, force unset) a failing
writable-layer release does not abort the removal: the error is recorded but
the `return err` is commented out, so the run continues, deregisters the
container, clears the recorded removal error at the end and returns nil. -/
theorem onlyCleanup_release_failure_counterexample :
    (Windows.onlyCleanupContainer sampleStoppedLayer cfgPlain false
        envLayerFail).1 = none ∧
    Event.deregister ∈ (Windows.onlyCleanupContainer sampleStoppedLayer
        cfgPlain false envLayerFail).2.2 ∧
    (Windows.onlyCleanupContainer sampleStoppedLayer cfgPlain false
        envLayerFail).2.1.removalError = none :=
  ⟨rfl, by decide, rfl⟩

/-- Claim C6 amended: in the full cleanup engine (`cleanupContainer`) the
claim holds — a successful removal releases exactly one of the writable
layer or the snapshot lease, and a failing release is recorded on the
removal-error field and aborts the run before the root delete,
deregistration or Removed mark. In the simplified engine
(`onlyCleanupContainer`, windows variant) it does not: the run always
returns nil, always deregisters, finally clears the removal-error field, and
when its force parameter is set it releases neither resource. -/
theorem release_step_discipline (c : Container) (config : RmConfig)
    (env : CleanupEnv) :
    ((cleanupContainer c config env).1 = .ret none →
      countEvent Event.releaseLayer (cleanupContainer c config env).2.2
        = (if c.hasRWLayer = true then 1 else 0) ∧
      countEvent Event.leaseDelete (cleanupContainer c config env).2.2
        = (if c.hasRWLayer = true then 0
           else if env.usesSnapshotter = true then 1 else 0)) ∧
    (∀ e, c.hasRWLayer = true → env.releaseLayerErr = some e →
      Event.releaseLayer ∈ (cleanupContainer c config env).2.2 →
      (cleanupContainer c config env).1 = .ret (some e) ∧
      (cleanupContainer c config env).2.1.removalError = some e ∧
      (cleanupContainer c config env).2.1.removed = c.removed ∧
      Event.removeAll ∉ (cleanupContainer c config env).2.2 ∧
      Event.deregister ∉ (cleanupContainer c config env).2.2 ∧
      Event.setRemoved ∉ (cleanupContainer c config env).2.2) ∧
    (∀ e, c.hasRWLayer = false → env.usesSnapshotter = true →
      env.leaseDeleteErr = some e →
      Event.leaseDelete ∈ (cleanupContainer c config env).2.2 →
      (cleanupContainer c config env).1 = .ret (some e) ∧
      (cleanupContainer c config env).2.1.removalError = some e ∧
      (cleanupContainer c config env).2.1.removed = c.removed ∧
      Event.removeAll ∉ (cleanupContainer c config env).2.2 ∧
      Event.deregister ∉ (cleanupContainer c config env).2.2 ∧
      Event.setRemoved ∉ (cleanupContainer c config env).2.2) ∧
    (∀ force,
      (Windows.onlyCleanupContainer c config force env).1 = none ∧
      (Windows.onlyCleanupContainer c config force env).2.1.removalError
        = none ∧
      Event.deregister ∈ (Windows.onlyCleanupContainer c config force
        env).2.2 ∧
      (force = true →
        countEvent Event.releaseLayer
          (Windows.onlyCleanupContainer c config force env).2.2 = 0 ∧
        countEvent Event.leaseDelete
          (Windows.onlyCleanupContainer c config force env).2.2 = 0)) := by
  refine ⟨?_, ?_, ?_, ?_⟩
  · intro h
    rcases cleanupContainer_to_teardown c config env with
      ⟨c0, pre, heq, hrw0, hrm0, hpre⟩ | heq | ⟨c1, heq⟩
    · rw [heq] at h ⊢
      have hc := cleanupTeardown_release_counts c0 env pre h
      rw [hrw0] at hc
      rcases hpre with hp | hp <;> subst hp <;>
        simpa [countEvent] using hc
    · rw [heq] at h
      exact absurd h (by simp)
    · rw [heq] at h
      exact absurd h (by simp)
  · intro e hrw hrl hm
    rcases cleanupContainer_to_teardown c config env with
      ⟨c0, pre, heq, hrw0, hrm0, hpre⟩ | heq | ⟨c1, heq⟩
    · rw [heq] at hm ⊢
      rw [← hrm0]
      refine cleanupTeardown_layer_abort c0 env pre e (hrw0.trans hrw) hrl
        ?_ hm
      rcases hpre with hp | hp <;> subst hp <;> exact by decide
    · rw [heq] at hm
      simp at hm
    · rw [heq] at hm
      simp at hm
  · intro e hrw hsn hld hm
    rcases cleanupContainer_to_teardown c config env with
      ⟨c0, pre, heq, hrw0, hrm0, hpre⟩ | heq | ⟨c1, heq⟩
    · rw [heq] at hm ⊢
      rw [← hrm0]
      refine cleanupTeardown_lease_abort c0 env pre e (hrw0.trans hrw) hsn
        hld ?_ hm
      rcases hpre with hp | hp <;> subst hp <;> exact by decide
    · rw [heq] at hm
      simp at hm
    · rw [heq] at hm
      simp at hm
  · intro force
    unfold Windows.onlyCleanupContainer
    by_cases hf : force = true <;>
      by_cases hrw : c.hasRWLayer = true <;>
      rcases hrl : env.releaseLayerErr with _ | e₁ <;>
      by_cases hsn : env.usesSnapshotter = true <;>
      rcases hld : env.leaseDeleteErr with _ | e₂ <;>
      simp [hf, hrw, hrl, hsn, hld, countEvent_append, countEvent]

/-- Witness for the amended C6: a concrete failing layer release in the full
engine is recorded and aborts before deregistration; a concrete successful
removal releases the layer exactly once. -/
theorem release_step_discipline_witness :
    (cleanupContainer sampleStoppedLayer cfgPlain envLayerFail).1
        = .ret (some (.sysFail 0)) ∧
    (cleanupContainer sampleStoppedLayer cfgPlain
        envLayerFail).2.1.removalError = some (.sysFail 0) ∧
    Event.deregister ∉
      (cleanupContainer sampleStoppedLayer cfgPlain envLayerFail).2.2 ∧
    countEvent Event.releaseLayer
      (cleanupContainer sampleStoppedLayer cfgPlain envAllOk).2.2 = 1 := by
  have h2 := (release_step_discipline sampleStoppedLayer cfgPlain
    envLayerFail).2.1 (Err.sysFail 0) rfl rfl (by decide)
  have h1 := (release_step_discipline sampleStoppedLayer cfgPlain
    envAllOk).1 (by decide)
  refine ⟨h2.1, h2.2.1, h2.2.2.2.2.1, ?_⟩
  rw [h1.1]
  decide

/-- Counterexample for C7: pid 7 is reported dead by the windows liveness
probe (first conjunct), yet the windows-variant `ContainerRm` still routes
the container through the removal-in-progress guard and returns Conflict
with no cleanup performed (second conjunct), instead of skipping the guard
and entering cleanup directly. -/
theorem containerRm_probe_dead_counterexample :
    (Windows.pidExists 7 false probeEnvEnum).1 = false ∧
    Windows.ContainerRm "c0" cfgPlain rmEnvConflict
      = (.ret (some .conflict), []) :=
  ⟨by decide, by decide⟩

/-- Claim C7 amended: the unix-variant `ContainerRm` skips the guard both
for `Pid == 0` and for `Pid > 0` with the probe reporting the process dead,
entering the simplified cleanup directly; the windows-variant `ContainerRm`
skips the guard only for `Pid == 0` — a container with `Pid ≠ 0`, probe-dead
or not, has the guard attempted and receives Conflict when a removal is
already in progress, as does a probe-alive container in the unix variant. -/
theorem containerRm_guard_semantics (name : String) (config : RmConfig)
    (env : RmEnv) (ctr : Container) (hres : env.resolved = some ctr) :
    (ctr.pid = 0 →
      Windows.ContainerRm name config env
        = (.ret none, (Windows.onlyCleanupContainer ctr config true
            env.cleanupEnv).2.2) ∧
      Unix.ContainerRm name config env
        = (.ret none, (Unix.onlyCleanupContainer ctr config
            env.cleanupEnv).2.2)) ∧
    (ctr.pid ≠ 0 → env.inProgress = true →
      Windows.ContainerRm name config env = (.ret (some .conflict), [])) ∧
    (0 < ctr.pid → env.procAlive = false →
      Unix.ContainerRm name config env
        = (.ret none, (Unix.onlyCleanupContainer ctr config
            env.cleanupEnv).2.2)) ∧
    (0 < ctr.pid → env.procAlive = true → env.inProgress = true →
      Unix.ContainerRm name config env = (.ret (some .conflict), [])) := by
  refine ⟨?_, ?_, ?_, ?_⟩
  · intro hp0
    constructor
    · unfold Windows.ContainerRm
      rw [hres]
      simp [hp0]
    · unfold Unix.ContainerRm
      rw [hres]
      simp [hp0, Unix.onlyCleanupContainer]
  · intro hpne hprog
    unfold Windows.ContainerRm
    rw [hres]
    simp [hpne, hprog]
  · intro hpos hdead
    have hpne : ¬ctr.pid = 0 := by omega
    unfold Unix.ContainerRm
    rw [hres]
    simp [hpne, hpos, hdead, Unix.pidExists, Unix.onlyCleanupContainer]
  · intro hpos halive hprog
    have hpne : ¬ctr.pid = 0 := by omega
    unfold Unix.ContainerRm
    rw [hres]
    simp [hpne, hpos, halive, hprog, Unix.pidExists]

/-- Witness for the amended C7: with a dead process and a held guard, the
unix variant enters cleanup directly while the windows variant returns
Conflict. -/
theorem containerRm_guard_semantics_witness :
    Unix.ContainerRm "c0" cfgPlain rmEnvConflict
      = (.ret none, (Unix.onlyCleanupContainer sampleRunning cfgPlain
          envAllOk).2.2) ∧
    Windows.ContainerRm "c0" cfgPlain rmEnvConflict
      = (.ret (some .conflict), []) := by
  have h := containerRm_guard_semantics "c0" cfgPlain rmEnvConflict
    sampleRunning rfl
  exact ⟨h.2.2.1 (by decide) rfl, h.2.1 (by decide) rfl⟩

/-- Counterexample for C8: once a completed removal has deregistered the
container, its name no longer resolves (spec-modelled `GetContainer`), and a
second `ContainerRm` returns a NotFound error — not nil — in both variants. -/
theorem containerRm_second_removal_counterexample :
    Windows.ContainerRm "gone" cfgPlain rmEnvUnresolved
      = (.ret (some .notFound), []) ∧
    Unix.ContainerRm "gone" cfgPlain rmEnvUnresolved
      = (.ret (some .notFound), []) ∧
    Outcome.ret (some Err.notFound) ≠ Outcome.ret none :=
  ⟨rfl, rfl, by decide⟩

/-- Claim C8 amended: removing a fully deregistered container a second time
fails with NotFound, because the name no longer resolves; the idempotent
silent success exists only on the narrower race path in which the stale
reference still resolves but the post-guard registry re-check finds the
container gone — there `ContainerRm` returns nil having performed no
cleanup. -/
theorem containerRm_idempotent_recheck (name : String) (config : RmConfig)
    (env : RmEnv) :
    (env.resolved = none →
      Windows.ContainerRm name config env = (.ret (some .notFound), []) ∧
      Unix.ContainerRm name config env = (.ret (some .notFound), [])) ∧
    (∀ ctr, env.resolved = some ctr → env.inProgress = false →
      env.stillRegistered = false →
      (ctr.pid ≠ 0 →
        Windows.ContainerRm name config env = (.ret none, [])) ∧
      (0 < ctr.pid → env.procAlive = true →
        Unix.ContainerRm name config env = (.ret none, []))) := by
  constructor
  · intro hres
    constructor
    · unfold Windows.ContainerRm
      rw [hres]
    · unfold Unix.ContainerRm
      rw [hres]
  · intro ctr hres hprog hreg
    constructor
    · intro hpne
      unfold Windows.ContainerRm
      rw [hres]
      simp [hpne, hprog, hreg]
    · intro hpos halive
      have hpne : ¬ctr.pid = 0 := by omega
      unfold Unix.ContainerRm
      rw [hres]
      simp [hpne, hpos, halive, hprog, hreg, Unix.pidExists]

/-- Witness for the amended C8: the race path returns nil with no cleanup in
both variants at a concrete input. -/
theorem containerRm_idempotent_recheck_witness :
    Windows.ContainerRm "c0" cfgPlain rmEnvDereg = (.ret none, []) ∧
    Unix.ContainerRm "c0" cfgPlain rmEnvDereg = (.ret none, []) := by
  have h := (containerRm_idempotent_recheck "c0" cfgPlain rmEnvDereg).2
    sampleRunning rfl rfl rfl
  exact ⟨h.1 (by decide), h.2 (by decide) rfl⟩

/-- Claim C9 evaluation: the windows-variant probe is a pure observation —
for every pid, process state and oracle it returns the probed process's
state unchanged — but the unix-variant probe delivers SIGKILL
(`process.Signal(os.Kill)`): on a live process it reports `true` while
leaving the process dead, refuting the claim that the probe delivers no
state-altering signal. -/
theorem pidExists_not_pure_observation :
    (∀ pid alive env, (Windows.pidExists pid alive env).2 = alive) ∧
    (∀ pid, Unix.pidExists pid true = (true, false)) := by
  constructor
  · intro pid alive env
    unfold Windows.pidExists
    (repeat' split) <;> rfl
  · intro pid
    rfl

/-- Claim C10: `OnlyContainerRm` returns nil on every path — name not
resolving, force set, `Pid == 0`, or the underlying cleanup reporting an
error (the cleanup result is discarded) — and for a live container
(`Pid ≠ 0`) without force it returns nil having performed no cleanup at
all. -/
theorem OnlyContainerRm_always_nil (name : String) (config : RmConfig)
    (force : Bool) (env : RmEnv) :
    (Windows.OnlyContainerRm name config force env).1 = none ∧
    (∀ ctr, env.resolved = some ctr → ctr.pid ≠ 0 → force = false →
      (Windows.OnlyContainerRm name config force env).2 = []) := by
  constructor
  · unfold Windows.OnlyContainerRm
    rcases h : env.resolved with _ | ctr
    · rfl
    · (repeat' split) <;> rfl
  · intro ctr hres hp hf
    unfold Windows.OnlyContainerRm
    rw [hres]
    simp [hf, hp]

/-- Witness for C10 at a live container with force unset. -/
theorem OnlyContainerRm_always_nil_witness :
    (Windows.OnlyContainerRm "c0" cfgPlain false (rmEnvOf sampleRunning)).1
        = none ∧
    (Windows.OnlyContainerRm "c0" cfgPlain false (rmEnvOf sampleRunning)).2
        = [] := by
  have h := OnlyContainerRm_always_nil "c0" cfgPlain false
    (rmEnvOf sampleRunning)
  exact ⟨h.1, h.2 sampleRunning rfl (by decide) rfl⟩
